import Mathlib

/-!
Verification of the pair-qualification and list-merge engine of the assets
repository (`src/script/blockchain/ethereum.ts`, Ethereum and SmartChain
modules). The TypeScript functions are shallowly embedded: JavaScript field
access on a possibly-`undefined` object is modelled with `Option` plus an
`Except JsError` result (a `none` dereference throws), JS truthiness of a
string is emptiness, truthiness of a number is being zero (or the field being
absent), and the external collaborators (filesystem logo lookup, address
checksumming) are passed in as function parameters.
-/

set_option autoImplicit false

/-- A JavaScript runtime exception (e.g. `TypeError` from reading a property
of `undefined`). The embedding does not distinguish messages. -/
inductive JsError where
  | typeError
  deriving DecidableEq, Repr

/-- `TokenInfo` from `generic/subgraph`: one raw token of a subgraph pair.
The subgraph data is duck-typed (`as PairInfo` cast without validation), so
`decimals` may be absent (`none` models a missing/`undefined` field). -/
structure TokenInfo where
  id : String
  symbol : String
  name : String
  decimals : Option String
  deriving DecidableEq, Repr

/-- `PairInfo` from `generic/subgraph`: one raw candidate liquidity pair.
`reserveUSD = none` models an absent (`undefined`) field; the token sides may
also be absent, which is what the structural guard at ethereum.ts:57 tests. -/
structure PairInfo where
  id : String
  reserveUSD : Option Int
  token0 : Option TokenInfo
  token1 : Option TokenInfo
  deriving DecidableEq, Repr

/-- `TokenItem` from `generic/tokenlists` (constructor argument order as used
at ethereum.ts:114-119). `decimals = none` encodes the JS `NaN` that
`parseInt` yields on an unparsable string. -/
structure TokenItem where
  asset : String
  type : String
  address : String
  name : String
  symbol : String
  decimals : Option Int
  logoURI : String
  tags : List String
  deriving DecidableEq, Repr

/-- JS falsiness of the numeric field `pair.reserveUSD`: an absent field
(`undefined`) and the number `0` are falsy. -/
def jsNumFalsy (r : Option Int) : Bool :=
  r.getD 0 == 0

/-- JS `<` on the possibly-absent `pair.reserveUSD`: `undefined < m` is
`false` (NaN comparison), otherwise numeric comparison. -/
def jsLtNum (r : Option Int) (m : Int) : Bool :=
  match r with
  | none => false
  | some v => v < m

/-- JS `parseInt` on a string (radix 10): skip leading whitespace, optional
sign, then the longest digit prefix; `none` models the `NaN` result when no
digit is found. -/
def jsParseInt (s : String) : Option Int :=
  let cs := s.data.dropWhile (fun c => c == ' ' || c == '\t' || c == '\n' || c == '\r')
  let signAndRest : Int × List Char :=
    match cs with
    | '-' :: rest => (-1, rest)
    | '+' :: rest => (1, rest)
    | _ => (1, cs)
  let digits := signAndRest.2.takeWhile Char.isDigit
  if digits.isEmpty then none
  else some (signAndRest.1 * (digits.foldl (fun a c => a * 10 + (c.toNat - '0'.toNat)) 0 : Nat))

/-- Modelled from the spec: `assetID` (from `generic/asset`) is not under
`src/`; §4.1 only requires the asset id to be derived deterministically from
`(chainAssetIdBase, checksummedAddress)`. -/
def assetID (chainBase : Nat) (addr : String) : String :=
  "c" ++ toString chainBase ++ "_t" ++ addr

/-- Modelled from the spec: `logoURI` (from `generic/asset`) is not under
`src/`; the spec only requires a logo URI built deterministically from the
checksummed address and the chain tag. -/
def logoURI (addr chainTag sep : String) : String :=
  chainTag ++ "/" ++ addr ++ "/" ++ sep

/-- JS `String.prototype.toUpperCase` (ASCII range, character by
character). -/
def jsToUpper (s : String) : String :=
  ⟨s.data.map Char.toUpper⟩

/-- JS `String.prototype.toLowerCase` (ASCII range, character by
character). -/
def jsToLower (s : String) : String :=
  ⟨s.data.map Char.toLower⟩

/-- ethereum.ts:25 `Uniswap_MinLiquidity`. -/
def Uniswap_MinLiquidity : Int := 1000000

/-- ethereum.ts:26 `PrimaryTokens` for the Ethereum module. The SmartChain
module uses `["WBNB", "BNB"]`; both modules are embedded once, parameterized
by this list (spec §9 collapses them into one engine). -/
def PrimaryTokens : List String := ["WETH", "ETH"]

/-- ethereum.ts:40-42 `isTokenPrimary`: the module constant `PrimaryTokens`
is taken as the parameter `primarySymbols`. The source compares each entry
`t` with `token.symbol.toUpperCase()` by exact string equality. -/
def isTokenPrimary (primarySymbols : List String) (token : TokenInfo) : Bool :=
  (primarySymbols.find? (fun t => t == jsToUpper token.symbol)).isSome

/-- ethereum.ts:45-53 `primaryTokenIndex`: 1 if token0 is primary, else 2 if
token1 is primary, else 0. Reading `.symbol` of an absent token throws, hence
the `Except` result. -/
def primaryTokenIndex (primarySymbols : List String) (pair : PairInfo) :
    Except JsError Nat :=
  match pair.token0 with
  | none => .error .typeError
  | some t0 =>
    if isTokenPrimary primarySymbols t0 then .ok 1
    else
      match pair.token1 with
      | none => .error .typeError
      | some t1 =>
        if isTokenPrimary primarySymbols t1 then .ok 2 else .ok 0

/-- ethereum.ts:28-38 `checkEthTokenExists` (identical to the SmartChain
`checkBSCTokenExists`): the logo artifact must exist on disk (the filesystem
is the parameter `logoExists`) and the id must appear in the allowlist by
case-insensitive comparison. -/
def checkEthTokenExists (logoExists : String → Bool) (id : String)
    (tokenAllowlist : List String) : Bool :=
  if !(logoExists id) then false
  else if (tokenAllowlist.find? (fun t => jsToLower id == jsToLower t)).isNone then false
  else true

/-- ethereum.ts:57 structural guard:
`!pair.id && !pair.reserveUSD && !pair.token0 && !pair.token1`. -/
def structuralGuard (pair : PairInfo) : Bool :=
  (pair.id == "") && jsNumFalsy pair.reserveUSD
    && pair.token0.isNone && pair.token1.isNone

/-- ethereum.ts:60-77, the checks of `checkTradingPair` after the structural
guard: liquidity floor, side-0 eligibility, side-1 eligibility, primary
presence. Reading `pair.token0.id` of an absent token throws. -/
def checkTradingPairTail (primarySymbols : List String)
    (logoExists : String → Bool) (pair : PairInfo) (minLiquidity : Int)
    (tokenAllowlist : List String) : Except JsError Bool :=
  if jsLtNum pair.reserveUSD minLiquidity then .ok false
  else
    match pair.token0 with
    | none => .error .typeError
    | some t0 =>
      if !(checkEthTokenExists logoExists t0.id tokenAllowlist) then .ok false
      else
        match pair.token1 with
        | none => .error .typeError
        | some t1 =>
          if !(checkEthTokenExists logoExists t1.id tokenAllowlist) then .ok false
          else
            match primaryTokenIndex primarySymbols pair with
            | .error e => .error e
            | .ok idx => if idx == 0 then .ok false else .ok true

/-- ethereum.ts:56-78 `checkTradingPair`: the qualification predicate. -/
def checkTradingPair (primarySymbols : List String)
    (logoExists : String → Bool) (pair : PairInfo) (minLiquidity : Int)
    (tokenAllowlist : List String) : Except JsError Bool :=
  if structuralGuard pair then .ok false
  else checkTradingPairTail primarySymbols logoExists pair minLiquidity tokenAllowlist

/-- ethereum.ts:112-120 `tokenInfoFromSubgraphToken`: canonicalize one raw
token. `toChecksum` (from `generic/eth-address`, not under `src/`) is passed
in as a parameter. `parseInt(token.decimals.toString())` throws only when the
`decimals` field is absent (`.toString()` on `undefined`); an unparsable
string yields `NaN`, encoded as `decimals = none` in the result. -/
def tokenInfoFromSubgraphToken (toChecksum : String → String)
    (token : TokenInfo) : Except JsError TokenItem :=
  let idChecksum := toChecksum token.id
  match token.decimals with
  | none => .error .typeError
  | some d =>
    .ok { asset := assetID 60 idChecksum
          type := "ERC20"
          address := idChecksum
          name := token.name
          symbol := token.symbol
          decimals := jsParseInt d
          logoURI := logoURI idChecksum "ethereum" "--"
          tags := [] }

/-- `tokenInfoFromSubgraphToken(p.token0)` as called at ethereum.ts:131-132:
the argument itself may be an absent token, whose `.id` read throws. -/
def canonicalizeSide (toChecksum : String → String) (ot : Option TokenInfo) :
    Except JsError TokenItem :=
  match ot with
  | none => .error .typeError
  | some t => tokenInfoFromSubgraphToken toChecksum t

/-- ethereum.ts:131-136: canonicalize both sides of a pair, then swap the two
`TokenItem`s when `primaryTokenIndex(p) == 2`, yielding the (tokenItem0,
tokenItem1) arguments handed to `addPairIfNeeded`. -/
def orientPair (toChecksum : String → String) (primarySymbols : List String)
    (p : PairInfo) : Except JsError (TokenItem × TokenItem) :=
  match canonicalizeSide toChecksum p.token0 with
  | .error e => .error e
  | .ok item0 =>
    match canonicalizeSide toChecksum p.token1 with
    | .error e => .error e
    | .ok item1 =>
      match primaryTokenIndex primarySymbols p with
      | .error e => .error e
      | .ok idx => if idx == 2 then .ok (item1, item0) else .ok (item0, item1)

/-- Modelled from the spec: `addTokenIfNeeded` inside `addPairIfNeeded`
(from `generic/tokenlists`) is not under `src/`; §4.4 `mergePair` appends a
token absent from `list.tokens` (by checksummed-address equality) and leaves
an already-present address untouched (existing entry wins). -/
def addTokenIfNeeded (t : TokenItem) (tokens : List TokenItem) : List TokenItem :=
  if tokens.any (fun x => x.address == t.address) then tokens
  else tokens ++ [t]

/-- Modelled from the spec: `addPairIfNeeded` (from `generic/tokenlists`) is
not under `src/`; §4.4 `mergePair(tokenA, tokenB, list)` ensures both tokens
exist in `list.tokens`, appending any that are absent in the order
(tokenA, tokenB). -/
def addPairIfNeeded (t0 t1 : TokenItem) (tokens : List TokenItem) : List TokenItem :=
  addTokenIfNeeded t1 (addTokenIfNeeded t0 tokens)

/-- The merge of a sequence of already-oriented canonical pairs into a base
token list, `addPairIfNeeded` applied left to right (the `forEach` at
ethereum.ts:130-138). -/
def mergeAll (ps : List (TokenItem × TokenItem)) (tokens : List TokenItem) :
    List TokenItem :=
  ps.foldl (fun acc p => addPairIfNeeded p.1 p.2 acc) tokens

/-- ethereum.ts:130-138, the merge loop of `generateTokenlist`: canonicalize,
orient and merge each filtered pair in order. There is no try/catch here, so
a thrown exception aborts the whole loop (`Except.error` propagates). -/
def processPairs (toChecksum : String → String) (primarySymbols : List String)
    (pairs : List PairInfo) (tokens : List TokenItem) :
    Except JsError (List TokenItem) :=
  match pairs with
  | [] => .ok tokens
  | p :: rest =>
    match orientPair toChecksum primarySymbols p with
    | .error e => .error e
    | .ok items => processPairs toChecksum primarySymbols rest (addPairIfNeeded items.1 items.2 tokens)

/-- ethereum.ts:89-102, the filtering loop of `retrieveUniswapPairs`: each
candidate pair is checked inside a try/catch, an exception is caught and the
pair skipped, a qualified pair is pushed onto the result. -/
def filterPairs (primarySymbols : List String) (logoExists : String → Bool)
    (pairs : List PairInfo) (minLiquidity : Int) (tokenAllowlist : List String) :
    List PairInfo :=
  match pairs with
  | [] => []
  | p :: rest =>
    match checkTradingPair primarySymbols logoExists p minLiquidity tokenAllowlist with
    | .ok true => p :: filterPairs primarySymbols logoExists rest minLiquidity tokenAllowlist
    | .ok false => filterPairs primarySymbols logoExists rest minLiquidity tokenAllowlist
    | .error _ => filterPairs primarySymbols logoExists rest minLiquidity tokenAllowlist

/-! Concrete fixtures used by the claim theorems, witnesses and
counterexamples. Addresses are short placeholder strings; the checksum
collaborator is instantiated with the identity function where a concrete
value is needed, since every claim below holds for (or fails independently
of) the choice of checksum function. -/

def tokWETH : TokenInfo :=
  { id := "0xAA", symbol := "WETH", name := "Wrapped Ether", decimals := some "18" }

def tokETH : TokenInfo :=
  { id := "0xBB", symbol := "ETH", name := "Ether", decimals := some "18" }

def tokTOKX : TokenInfo :=
  { id := "0xCC", symbol := "TOKX", name := "Token X", decimals := some "8" }

def tokBadDecimals : TokenInfo :=
  { id := "0xEE", symbol := "ABC", name := "Abc token", decimals := some "abc" }

def tokBadDecimalsNone : TokenInfo :=
  { id := "0xDD", symbol := "BAD", name := "Bad", decimals := none }

def wethItemW : TokenItem :=
  { asset := "c60_t0xAA", type := "ERC20", address := "0xAA", name := "Wrapped Ether",
    symbol := "WETH", decimals := some 18, logoURI := "ethereum/0xAA/--", tags := [] }

def tokxItemW : TokenItem :=
  { asset := "c60_t0xCC", type := "ERC20", address := "0xCC", name := "Token X",
    symbol := "TOKX", decimals := some 8, logoURI := "ethereum/0xCC/--", tags := [] }

def pairScenario : PairInfo :=
  { id := "p1", reserveUSD := some 1000000, token0 := some tokWETH, token1 := some tokTOKX }

def pairBothPrim : PairInfo :=
  { id := "p2", reserveUSD := some 2000000, token0 := some tokWETH, token1 := some tokETH }

def pairSwapC1 : PairInfo :=
  { id := "p3", reserveUSD := some 1000000, token0 := some tokTOKX, token1 := some tokWETH }

def pairBadDecimals : PairInfo :=
  { id := "p5", reserveUSD := some 2000000,
    token0 := some tokBadDecimalsNone, token1 := some tokWETH }

/-! Helper lemmas. -/

theorem isTokenPrimary_iff (ps : List String) (t : TokenInfo) :
    isTokenPrimary ps t = true ↔ jsToUpper t.symbol ∈ ps := by
  simp only [isTokenPrimary, List.find?_isSome, beq_iff_eq]
  constructor
  · rintro ⟨x, hx, rfl⟩; exact hx
  · intro h; exact ⟨_, h, rfl⟩

theorem checkEthTokenExists_congr (l1 l2 : String → Bool) (id : String)
    (al : List String) (h : l1 id = l2 id) :
    checkEthTokenExists l1 id al = checkEthTokenExists l2 id al := by
  simp [checkEthTokenExists, h]

theorem addTokenIfNeeded_eq_append (t : TokenItem) (tokens : List TokenItem) :
    ∃ r, addTokenIfNeeded t tokens = tokens ++ r := by
  unfold addTokenIfNeeded
  by_cases hc : tokens.any (fun x => x.address == t.address) = true
  · exact ⟨[], by simp [hc]⟩
  · exact ⟨[t], by simp [hc]⟩

theorem addPairIfNeeded_eq_append (t0 t1 : TokenItem) (tokens : List TokenItem) :
    ∃ r, addPairIfNeeded t0 t1 tokens = tokens ++ r := by
  obtain ⟨r1, h1⟩ := addTokenIfNeeded_eq_append t0 tokens
  obtain ⟨r2, h2⟩ := addTokenIfNeeded_eq_append t1 (addTokenIfNeeded t0 tokens)
  refine ⟨r1 ++ r2, ?_⟩
  have e : addPairIfNeeded t0 t1 tokens = addTokenIfNeeded t1 (addTokenIfNeeded t0 tokens) := rfl
  rw [e, h2, h1, List.append_assoc]

theorem mergeAll_eq_append (ps : List (TokenItem × TokenItem)) (tokens : List TokenItem) :
    ∃ r, mergeAll ps tokens = tokens ++ r := by
  induction ps generalizing tokens with
  | nil => exact ⟨[], by simp [mergeAll]⟩
  | cons p rest ih =>
    obtain ⟨r1, h1⟩ := addPairIfNeeded_eq_append p.1 p.2 tokens
    obtain ⟨r2, h2⟩ := ih (addPairIfNeeded p.1 p.2 tokens)
    refine ⟨r1 ++ r2, ?_⟩
    have e : mergeAll (p :: rest) tokens = mergeAll rest (addPairIfNeeded p.1 p.2 tokens) := rfl
    rw [e, h2, h1, List.append_assoc]

theorem addTokenIfNeeded_nodup (t : TokenItem) (tokens : List TokenItem)
    (h : (tokens.map TokenItem.address).Nodup) :
    ((addTokenIfNeeded t tokens).map TokenItem.address).Nodup := by
  unfold addTokenIfNeeded
  by_cases hc : tokens.any (fun x => x.address == t.address) = true
  · simpa [hc] using h
  · simp only [hc]
    simp only [Bool.false_eq_true, if_false, List.map_append, List.map_cons, List.map_nil]
    rw [List.nodup_append]
    refine ⟨h, List.nodup_singleton _, ?_⟩
    intro a ha hb
    simp [List.any_eq_true] at hc
    simp [List.mem_map] at ha
    obtain ⟨x, hx, hxa⟩ := ha
    simp at hb
    exact hc x hx (hxa.trans hb)

theorem mergeAll_nodup (ps : List (TokenItem × TokenItem)) (tokens : List TokenItem)
    (h : (tokens.map TokenItem.address).Nodup) :
    ((mergeAll ps tokens).map TokenItem.address).Nodup := by
  induction ps generalizing tokens with
  | nil => simpa [mergeAll] using h
  | cons p rest ih =>
    have e : mergeAll (p :: rest) tokens = mergeAll rest (addPairIfNeeded p.1 p.2 tokens) := rfl
    rw [e]
    exact ih _ (addTokenIfNeeded_nodup _ _ (addTokenIfNeeded_nodup _ _ h))

theorem primaryTokenIndex_pos (ps : List String) (pair : PairInfo)
    (t0 t1 : TokenInfo) (idx : Nat)
    (h0 : pair.token0 = some t0) (h1 : pair.token1 = some t1)
    (h : primaryTokenIndex ps pair = .ok idx) (hne : idx ≠ 0) :
    isTokenPrimary ps t0 = true ∨ isTokenPrimary ps t1 = true := by
  unfold primaryTokenIndex at h
  rw [h0, h1] at h
  by_cases c0 : isTokenPrimary ps t0 = true
  · exact Or.inl c0
  · by_cases c1 : isTokenPrimary ps t1 = true
    · exact Or.inr c1
    · simp [c0, c1] at h
      exact absurd h.symm hne

/-! Claim theorems. -/

/-- Claim C1, counterexample: in the spec's own scenario (token0 = WETH is
primary, partner TOKENX, base list [WETH]) the pair handed to merge is
(WETH, TOKENX) — the primary token is the FIRST element, not placed after
its partner as the claim states — and the merged list is [WETH, TOKENX] only
because WETH already existed in the base. -/
theorem orientation_scenario_primary_first :
    orientPair (fun s => s) PrimaryTokens pairScenario = .ok (wethItemW, tokxItemW)
      ∧ orientPair (fun s => s) PrimaryTokens pairScenario ≠ .ok (tokxItemW, wethItemW)
      ∧ isTokenPrimary PrimaryTokens tokWETH = true
      ∧ isTokenPrimary PrimaryTokens tokTOKX = false
      ∧ mergeAll [(wethItemW, tokxItemW)] [wethItemW] = [wethItemW, tokxItemW] := by
  refine ⟨rfl, ?_, rfl, rfl, rfl⟩
  intro h
  rw [show orientPair (fun s => s) PrimaryTokens pairScenario = .ok (wethItemW, tokxItemW)
    from rfl] at h
  simp [wethItemW, tokxItemW] at h

/-- Claim C1 (amended): when the classifier reports the second raw token as
primary, the two canonicalized tokens are swapped before merging, so the
primary token is always the FIRST element of the pair handed to merge and is
inserted before its pair partner; in the spec's scenario the pair handed to
merge is (WETH, TOKENX) and the merged base [WETH] becomes [WETH, TOKENX]. -/
theorem orientation_swaps_primary_to_front (toChecksum : String → String)
    (primarySymbols : List String) (p : PairInfo) (a b : TokenInfo)
    (ia ib : TokenItem)
    (h0 : p.token0 = some a) (h1 : p.token1 = some b)
    (ha : tokenInfoFromSubgraphToken toChecksum a = .ok ia)
    (hb : tokenInfoFromSubgraphToken toChecksum b = .ok ib)
    (hidx : primaryTokenIndex primarySymbols p = .ok 2) :
    orientPair toChecksum primarySymbols p = .ok (ib, ia) := by
  unfold orientPair canonicalizeSide
  rw [h0, h1]
  simp [ha, hb, hidx]

/-- Witness for the amended claim C1, at a pair whose second raw token is the
primary WETH. -/
theorem orientation_swaps_primary_to_front_witness :
    orientPair (fun s => s) PrimaryTokens pairSwapC1 = .ok (wethItemW, tokxItemW) :=
  orientation_swaps_primary_to_front (fun s => s) PrimaryTokens pairSwapC1
    tokTOKX tokWETH tokxItemW wethItemW rfl rfl rfl rfl rfl

/-- Claim C2, counterexample: the WETH/ETH pair has BOTH sides classified
primary, yet qualification admits it — so admission does not require exactly
one primary side. -/
theorem admitted_pair_with_two_primary_sides :
    checkTradingPair PrimaryTokens (fun _ => true) pairBothPrim 1000000 ["0xaa", "0xbb"] = .ok true
      ∧ isTokenPrimary PrimaryTokens tokWETH = true
      ∧ isTokenPrimary PrimaryTokens tokETH = true
      ∧ pairBothPrim.token0 = some tokWETH
      ∧ pairBothPrim.token1 = some tokETH := ⟨rfl, rfl, rfl, rfl, rfl⟩

/-- Claim C2 (amended): a pair is admitted only if both token sides are
present, at least one side (not necessarily exactly one) is classified
primary, and BOTH sides — hence in particular the non-primary side — pass
the eligibility check (local logo artifact present and case-insensitive
allowlist membership). -/
theorem admission_requires_primary_and_eligibility (primarySymbols : List String)
    (logoExists : String → Bool) (pair : PairInfo) (minLiquidity : Int)
    (tokenAllowlist : List String)
    (h : checkTradingPair primarySymbols logoExists pair minLiquidity tokenAllowlist = .ok true) :
    ∃ t0 t1, pair.token0 = some t0 ∧ pair.token1 = some t1
      ∧ (isTokenPrimary primarySymbols t0 = true ∨ isTokenPrimary primarySymbols t1 = true)
      ∧ checkEthTokenExists logoExists t0.id tokenAllowlist = true
      ∧ checkEthTokenExists logoExists t1.id tokenAllowlist = true := by
  unfold checkTradingPair checkTradingPairTail at h
  split at h
  · simp at h
  split at h
  · simp at h
  split at h
  · simp at h
  rename_i t0 heq0
  split at h
  · simp at h
  rename_i hc0
  split at h
  · simp at h
  rename_i t1 heq1
  split at h
  · simp at h
  rename_i hc1
  split at h
  · simp at h
  rename_i idx heqi
  split at h
  · simp at h
  rename_i hidx
  refine ⟨t0, t1, heq0, heq1, ?_, ?_, ?_⟩
  · exact primaryTokenIndex_pos primarySymbols pair t0 t1 idx heq0 heq1 heqi (by simpa using hidx)
  · simpa using hc0
  · simpa using hc1

/-- Witness for the amended claim C2, at the admitted WETH/TOKENX pair. -/
theorem admission_requires_primary_and_eligibility_witness :
    ∃ t0 t1, pairScenario.token0 = some t0 ∧ pairScenario.token1 = some t1
      ∧ (isTokenPrimary PrimaryTokens t0 = true ∨ isTokenPrimary PrimaryTokens t1 = true)
      ∧ checkEthTokenExists (fun _ => true) t0.id ["0xaa", "0xcc"] = true
      ∧ checkEthTokenExists (fun _ => true) t1.id ["0xaa", "0xcc"] = true :=
  admission_requires_primary_and_eligibility PrimaryTokens (fun _ => true) pairScenario
    1000000 ["0xaa", "0xcc"] rfl

/-- Claim C3: the structural-completeness guard of `checkTradingPair`
rejects a pair exactly when its id is empty and its reserve is zero or
absent and both token sides are absent; in every other case the pair passes
on to the remaining checks. -/
theorem structuralGuard_rejects_iff (primarySymbols : List String)
    (logoExists : String → Bool) (pair : PairInfo) (minLiquidity : Int)
    (tokenAllowlist : List String) :
    (structuralGuard pair = true ↔
        pair.id = "" ∧ (pair.reserveUSD = none ∨ pair.reserveUSD = some 0)
          ∧ pair.token0 = none ∧ pair.token1 = none)
      ∧ (structuralGuard pair = true →
          checkTradingPair primarySymbols logoExists pair minLiquidity tokenAllowlist = .ok false)
      ∧ (structuralGuard pair = false →
          checkTradingPair primarySymbols logoExists pair minLiquidity tokenAllowlist =
            checkTradingPairTail primarySymbols logoExists pair minLiquidity tokenAllowlist) := by
  refine ⟨?_, ?_, ?_⟩
  · simp only [structuralGuard, jsNumFalsy, Bool.and_eq_true, beq_iff_eq,
      Option.isNone_iff_eq_none]
    cases pair.reserveUSD <;> simp [and_assoc]
  · intro h; simp [checkTradingPair, h]
  · intro h; simp [checkTradingPair, h]

/-- Witness for claim C3: a fully-degenerate pair is rejected by the
structural guard. -/
theorem structuralGuard_rejects_iff_witness :
    checkTradingPair PrimaryTokens (fun _ => true)
        { id := "", reserveUSD := some 0, token0 := none, token1 := none } 1000000 [] = .ok false :=
  (structuralGuard_rejects_iff PrimaryTokens (fun _ => true)
    { id := "", reserveUSD := some 0, token0 := none, token1 := none } 1000000 []).2.1 (by decide)

/-- Claim C4, counterexample: for a raw token whose decimals field holds the
unparsable string "abc", canonicalization DOES return a token —
`parseInt` yields NaN (here `none`) instead of raising
`MalformedTokenError`. -/
theorem unparsable_decimals_still_returns_token :
    tokenInfoFromSubgraphToken (fun s => s) tokBadDecimals =
      .ok { asset := "c60_t0xEE", type := "ERC20", address := "0xEE", name := "Abc token",
            symbol := "ABC", decimals := none, logoURI := "ethereum/0xEE/--", tags := [] }
      ∧ jsParseInt "abc" = none := ⟨rfl, rfl⟩

/-- Claim C4 (amended): canonicalization never fails on a token whose
decimals field is present — it returns a token whose decimals is the JS
`parseInt` of that field, which is NaN (`none`) exactly when the string has
no leading integer — and it raises a TypeError exactly when the decimals
field is absent (`.toString()` on `undefined`). -/
theorem canonicalize_decimals_behavior (toChecksum : String → String) (token : TokenInfo) :
    (∀ d, token.decimals = some d →
        ∃ item, tokenInfoFromSubgraphToken toChecksum token = .ok item
          ∧ item.decimals = jsParseInt d)
      ∧ (token.decimals = none →
          tokenInfoFromSubgraphToken toChecksum token = .error .typeError) := by
  constructor
  · intro d hd
    unfold tokenInfoFromSubgraphToken
    rw [hd]
    exact ⟨_, rfl, rfl⟩
  · intro hd
    unfold tokenInfoFromSubgraphToken
    rw [hd]

/-- Witness for the amended claim C4, at the token with decimals "abc". -/
theorem canonicalize_decimals_behavior_witness :
    ∃ item, tokenInfoFromSubgraphToken (fun s => s) tokBadDecimals = .ok item
      ∧ item.decimals = jsParseInt "abc" :=
  (canonicalize_decimals_behavior (fun s => s) tokBadDecimals).1 "abc" rfl

/-- Claim C5, counterexample: an exception raised while canonicalizing one
pair in the merge loop of `generateTokenlist` is NOT caught — the whole
merge aborts and the remaining (well-formed) pair is never merged, even
though that pair alone would merge fine. -/
theorem canonicalization_exception_aborts_merge :
    processPairs (fun s => s) PrimaryTokens [pairBadDecimals, pairScenario] [wethItemW] =
        .error .typeError
      ∧ processPairs (fun s => s) PrimaryTokens [pairScenario] [wethItemW] =
          .ok [wethItemW, tokxItemW] := ⟨rfl, rfl⟩

/-- Claim C5 (amended): per-pair isolation holds only for the qualification
phase: in the retrieval loop an exception thrown while checking one
candidate pair is caught and that pair is skipped, so the remaining pairs
are still filtered; exceptions in the later canonicalize-and-merge loop are
not caught and abort the merge. -/
theorem filterPairs_skips_throwing_pair (primarySymbols : List String)
    (logoExists : String → Bool) (p : PairInfo) (rest : List PairInfo)
    (minLiquidity : Int) (tokenAllowlist : List String) (e : JsError)
    (h : checkTradingPair primarySymbols logoExists p minLiquidity tokenAllowlist = .error e) :
    filterPairs primarySymbols logoExists (p :: rest) minLiquidity tokenAllowlist =
      filterPairs primarySymbols logoExists rest minLiquidity tokenAllowlist := by
  conv_lhs => rw [filterPairs]
  simp [h]

/-- Witness for the amended claim C5: a pair with a missing token0 throws
during checking, is skipped, and the scenario pair after it is still
processed. -/
theorem filterPairs_skips_throwing_pair_witness :
    filterPairs PrimaryTokens (fun _ => true)
        [{ id := "p4", reserveUSD := some 2000000, token0 := none, token1 := some tokTOKX },
         pairScenario]
        1000000 ["0xaa", "0xcc"] =
      filterPairs PrimaryTokens (fun _ => true) [pairScenario] 1000000 ["0xaa", "0xcc"] :=
  filterPairs_skips_throwing_pair PrimaryTokens (fun _ => true)
    { id := "p4", reserveUSD := some 2000000, token0 := none, token1 := some tokTOKX }
    [pairScenario] 1000000 ["0xaa", "0xcc"] .typeError rfl

/-- Claim C6: merging qualified pairs into a base list is append-only: the
base list is left in place as the unchanged initial segment of the result
(so its entries are neither removed nor reordered), and when the base list
has no duplicate checksummed addresses neither does the merged result, so
each token is appended at most once per merge run even if it appears in
multiple qualifying pairs. -/
theorem mergeAll_append_only (L : List TokenItem) (P : List (TokenItem × TokenItem))
    (h : (L.map TokenItem.address).Nodup) :
    (mergeAll P L).take L.length = L
      ∧ ((mergeAll P L).map TokenItem.address).Nodup := by
  constructor
  · obtain ⟨r, hr⟩ := mergeAll_eq_append P L
    rw [hr, List.take_left]
  · exact mergeAll_nodup P L h

/-- Witness for claim C6, at base [WETH] and a pair stream repeating the
same WETH/TOKENX pair twice. -/
theorem mergeAll_append_only_witness :
    (mergeAll [(wethItemW, tokxItemW), (wethItemW, tokxItemW)] [wethItemW]).take 1 = [wethItemW]
      ∧ ((mergeAll [(wethItemW, tokxItemW), (wethItemW, tokxItemW)] [wethItemW]).map
          TokenItem.address).Nodup :=
  mergeAll_append_only [wethItemW] [(wethItemW, tokxItemW), (wethItemW, tokxItemW)] (by decide)

/-- Claim C7: the liquidity floor — a pair whose reserveUSD is a number
below minLiquidity is rejected by `checkTradingPair`, for every allowlist,
every filesystem state and every primary-symbols policy. -/
theorem liquidity_floor_rejects (primarySymbols : List String)
    (logoExists : String → Bool) (pair : PairInfo) (minLiquidity : Int)
    (tokenAllowlist : List String) (r : Int)
    (hr : pair.reserveUSD = some r) (hlt : r < minLiquidity) :
    checkTradingPair primarySymbols logoExists pair minLiquidity tokenAllowlist = .ok false := by
  unfold checkTradingPair
  by_cases hg : structuralGuard pair = true
  · simp [hg]
  · simp only [hg, Bool.false_eq_true, if_false]
    unfold checkTradingPairTail
    simp [jsLtNum, hr, hlt]

/-- Witness for claim C7: reserveUSD 500000 under floor 1000000 is rejected
even with both tokens allowlisted and all logos present. -/
theorem liquidity_floor_rejects_witness :
    checkTradingPair PrimaryTokens (fun _ => true)
        { id := "p", reserveUSD := some 500000,
          token0 := some tokWETH, token1 := some tokTOKX }
        1000000 ["0xaa", "0xcc"] = .ok false :=
  liquidity_floor_rejects PrimaryTokens (fun _ => true)
    { id := "p", reserveUSD := some 500000,
      token0 := some tokWETH, token1 := some tokTOKX }
    1000000 ["0xaa", "0xcc"] 500000 rfl (by decide)

/-- Claim C8, counterexample: with `primarySymbols = ["weth"]` and a pair
whose token0 symbol is "WETH", the upper-cased symbol is a member of the set
taken case-insensitively (both upper-case to "WETH"), yet the classifier
returns NONE (0), not FIRST — set entries are matched case-sensitively. -/
theorem lowercase_primary_symbol_ignored :
    primaryTokenIndex ["weth"] pairScenario = .ok 0
      ∧ pairScenario.token0 = some tokWETH
      ∧ jsToUpper tokWETH.symbol = jsToUpper "weth" := ⟨rfl, rfl, rfl⟩

/-- Claim C8 (amended): for every pair with both sides present, the
classifier returns FIRST (1) if token0's upper-cased symbol is literally an
entry of primarySymbols, else SECOND (2) if token1's is, else NONE (0);
FIRST takes precedence and no error is raised when both sides qualify.
Case-insensitivity holds only on the symbol side: set entries are compared
verbatim. -/
theorem primaryTokenIndex_spec (primarySymbols : List String) (pair : PairInfo)
    (t0 t1 : TokenInfo)
    (h0 : pair.token0 = some t0) (h1 : pair.token1 = some t1) :
    primaryTokenIndex primarySymbols pair =
      .ok (if jsToUpper t0.symbol ∈ primarySymbols then 1
           else if jsToUpper t1.symbol ∈ primarySymbols then 2 else 0) := by
  unfold primaryTokenIndex
  rw [h0, h1]
  by_cases c0 : isTokenPrimary primarySymbols t0 = true
  · simp [c0, (isTokenPrimary_iff primarySymbols t0).mp c0]
  · have m0 : ¬ jsToUpper t0.symbol ∈ primarySymbols :=
      fun hm => c0 ((isTokenPrimary_iff primarySymbols t0).mpr hm)
    by_cases c1 : isTokenPrimary primarySymbols t1 = true
    · simp [c0, c1, m0, (isTokenPrimary_iff primarySymbols t1).mp c1]
    · have m1 : ¬ jsToUpper t1.symbol ∈ primarySymbols :=
        fun hm => c1 ((isTokenPrimary_iff primarySymbols t1).mpr hm)
      simp [c0, c1, m0, m1]

/-- Witness for the amended claim C8, at the WETH/ETH pair where both sides
qualify: FIRST is returned and no error is raised. -/
theorem primaryTokenIndex_spec_witness :
    primaryTokenIndex PrimaryTokens pairBothPrim =
      .ok (if jsToUpper tokWETH.symbol ∈ PrimaryTokens then 1
           else if jsToUpper tokETH.symbol ∈ PrimaryTokens then 2 else 0)
      ∧ primaryTokenIndex PrimaryTokens pairBothPrim = .ok 1 :=
  ⟨primaryTokenIndex_spec PrimaryTokens pairBothPrim tokWETH tokETH rfl rfl, rfl⟩

/-- Claim C9, counterexample: two evaluations of qualification on identical
pair, policy, and allowlist values yield different outcomes when the
filesystem differs — the logo-artifact lookup is a further input, so the
outcome is not a function of (pair, policy, allowlist) alone. -/
theorem qualification_reads_filesystem :
    checkTradingPair PrimaryTokens (fun _ => true) pairScenario 1000000 ["0xaa", "0xcc"] = .ok true
      ∧ checkTradingPair PrimaryTokens (fun _ => false) pairScenario 1000000 ["0xaa", "0xcc"] = .ok false :=
  ⟨rfl, rfl⟩

/-- Claim C9 (amended): qualification is a deterministic function of (pair,
policy, allowlist) AND the logo-artifact presence of the pair's token
addresses: whenever two filesystem states agree on the pair's token ids, the
outcomes on identical pair, policy, and allowlist agree. -/
theorem checkTradingPair_deterministic (primarySymbols : List String)
    (l1 l2 : String → Bool) (pair : PairInfo) (minLiquidity : Int)
    (tokenAllowlist : List String)
    (h0 : ∀ t, pair.token0 = some t → l1 t.id = l2 t.id)
    (h1 : ∀ t, pair.token1 = some t → l1 t.id = l2 t.id) :
    checkTradingPair primarySymbols l1 pair minLiquidity tokenAllowlist =
      checkTradingPair primarySymbols l2 pair minLiquidity tokenAllowlist := by
  cases ht0 : pair.token0 with
  | none => simp [checkTradingPair, checkTradingPairTail, ht0]
  | some t0 =>
    cases ht1 : pair.token1 with
    | none =>
      simp [checkTradingPair, checkTradingPairTail, ht0, ht1,
        checkEthTokenExists_congr l1 l2 t0.id tokenAllowlist (h0 t0 ht0)]
    | some t1 =>
      simp [checkTradingPair, checkTradingPairTail, ht0, ht1,
        checkEthTokenExists_congr l1 l2 t0.id tokenAllowlist (h0 t0 ht0),
        checkEthTokenExists_congr l1 l2 t1.id tokenAllowlist (h1 t1 ht1)]

/-- Witness for the amended claim C9: an all-true filesystem and one that
holds logos exactly for the two scenario addresses give the same outcome. -/
theorem checkTradingPair_deterministic_witness :
    checkTradingPair PrimaryTokens (fun _ => true) pairScenario 1000000 ["0xaa", "0xcc"] =
      checkTradingPair PrimaryTokens
        (fun s => jsToLower s == "0xaa" || jsToLower s == "0xcc")
        pairScenario 1000000 ["0xaa", "0xcc"] :=
  checkTradingPair_deterministic PrimaryTokens (fun _ => true)
    (fun s => jsToLower s == "0xaa" || jsToLower s == "0xcc")
    pairScenario 1000000 ["0xaa", "0xcc"]
    (by
      intro t ht
      have h' : some tokWETH = some t := ht
      cases Option.some.inj h'
      rfl)
    (by
      intro t ht
      have h' : some tokTOKX = some t := ht
      cases Option.some.inj h'
      rfl)

/-- Claim C10: a pair with a non-empty id, a reserve at or above the floor
and an absent token0 is not rejected by qualification — evaluating the
eligibility checks dereferences the missing token and raises an exception —
and the per-pair handler of the retrieval loop is what contains it: the pair
is skipped and the remaining pairs are still filtered. -/
theorem missing_token0_raises (primarySymbols : List String)
    (logoExists : String → Bool) (pair : PairInfo) (minLiquidity : Int)
    (tokenAllowlist : List String) (r : Int) (rest : List PairInfo)
    (hid : pair.id ≠ "") (hr : pair.reserveUSD = some r) (hge : minLiquidity ≤ r)
    (h0 : pair.token0 = none) :
    checkTradingPair primarySymbols logoExists pair minLiquidity tokenAllowlist = .error .typeError
      ∧ filterPairs primarySymbols logoExists (pair :: rest) minLiquidity tokenAllowlist =
          filterPairs primarySymbols logoExists rest minLiquidity tokenAllowlist := by
  have hguard : structuralGuard pair = false := by
    simp [structuralGuard, hid]
  have hmain : checkTradingPair primarySymbols logoExists pair minLiquidity tokenAllowlist
      = .error .typeError := by
    unfold checkTradingPair
    simp only [hguard, Bool.false_eq_true, if_false]
    unfold checkTradingPairTail
    have : jsLtNum pair.reserveUSD minLiquidity = false := by
      simp [jsLtNum, hr]; omega
    simp [this, h0]
  refine ⟨hmain, ?_⟩
  conv_lhs => rw [filterPairs]
  simp [hmain]

/-- Witness for claim C10, at a structurally-passing pair with a missing
token0. -/
theorem missing_token0_raises_witness :
    checkTradingPair PrimaryTokens (fun _ => true)
        { id := "p4", reserveUSD := some 2000000, token0 := none, token1 := some tokTOKX }
        1000000 ["0xcc"] = .error .typeError
      ∧ filterPairs PrimaryTokens (fun _ => true)
          [{ id := "p4", reserveUSD := some 2000000, token0 := none, token1 := some tokTOKX }]
          1000000 ["0xcc"] = filterPairs PrimaryTokens (fun _ => true) [] 1000000 ["0xcc"] :=
  missing_token0_raises PrimaryTokens (fun _ => true)
    { id := "p4", reserveUSD := some 2000000, token0 := none, token1 := some tokTOKX }
    1000000 ["0xcc"] 2000000 [] (by decide) rfl (by decide) rfl
